import Mathlib

/-!
Shallow embedding of the ST7701 MIPI LCD panel adapter
(src/libraries/ESP32_Display_Panel/src/drivers/lcd/port/esp_lcd_st7701_mipi.c)
and proofs about its observable behavior.

The driver's side effects (GPIO writes, transport transactions, delays,
log warnings, allocation, delegation) are modelled as an explicit event
trace; fallible collaborators (the command/parameter transport, the GPIO
configuration call, the wrapped DPI panel constructor, the captured
delegate functions) are modelled as explicit result oracles passed to
each operation.  Machine bytes are Nat with an explicit mod 256 where the
C code stores into a uint8_t field.
-/

/-! ## Command codes and bit masks

Modelled from the spec: the numeric command codes below come from the
headers esp_lcd_panel_commands.h and esp_lcd_st7701.h, which are not part
of the provided source tree; they are the standard MIPI DCS command codes
and the ST7701 vendor codes the spec refers to as software-reset,
sleep-out, display-on, the orientation (MADCTL) register, the pixel-format
(COLMOD) register, the page-select (command-2 bank select) command and its
bits.
-/

def LCD_CMD_SWRESET : Nat := 0x01

def LCD_CMD_SLPOUT : Nat := 0x11

def LCD_CMD_DISPON : Nat := 0x29

def LCD_CMD_MADCTL : Nat := 0x36

def LCD_CMD_COLMOD : Nat := 0x3A

/-- Modelled from the spec: RGB/BGR element-order bit of MADCTL (1 <<< 3). -/
def LCD_CMD_BGR_BIT : Nat := 0x08

/-- Modelled from the spec: vertical-mirror bit of MADCTL (1 <<< 4). -/
def LCD_CMD_ML_BIT : Nat := 0x10

/-- Modelled from the spec: the page-select ("command-2 bank select") command code. -/
def ST7701_CMD_CND2BKxSEL : Nat := 0xFF

def ST7701_CMD_BKxSEL_BYTE0 : Nat := 0x77

def ST7701_CMD_BKxSEL_BYTE1 : Nat := 0x01

def ST7701_CMD_BKxSEL_BYTE2 : Nat := 0x00

def ST7701_CMD_BKxSEL_BYTE3 : Nat := 0x00

def ST7701_CMD_BKxSEL_BK0 : Nat := 0x00

/-- Modelled from the spec: the bit of the 5th page-select parameter byte that
enables command-group-2 (1 <<< 4). -/
def ST7701_CMD_CN2_BIT : Nat := 0x10

/-- Modelled from the spec: the scan-direction register in command-2 bank 0. -/
def ST7701_CMD_SDIR : Nat := 0xC7

/-- Modelled from the spec: the designated bit of the scan-direction byte (1 <<< 2). -/
def ST7701_CMD_SS_BIT : Nat := 0x04

/-- Modelled from the spec: LCD_RGB_ELEMENT_ORDER_RGB of the IDF hal enum. -/
def LCD_RGB_ELEMENT_ORDER_RGB : Nat := 0

/-- Modelled from the spec: LCD_RGB_ELEMENT_ORDER_BGR of the IDF hal enum. -/
def LCD_RGB_ELEMENT_ORDER_BGR : Nat := 1

/-! ## Status codes and event traces -/

/-- Return status, mirroring the esp_err_t values the driver produces:
ESP_OK, ESP_ERR_INVALID_ARG, ESP_ERR_NOT_SUPPORTED, ESP_ERR_NO_MEM,
ESP_FAIL, and a passthrough of a collaborator's own nonzero error code
(transport, GPIO configuration, DPI-panel constructor, delegate). -/
inductive EspRet where
  | ok
  | invalidArg
  | notSupported
  | noMem
  | fail
  | extErr (code : Nat)
deriving DecidableEq

/-- One observable side effect of the driver. -/
inductive Event where
  | gpioConfigOut (pin : Int)
  | gpioSetLevel (pin : Int) (level : Bool)
  | gpioResetPin (pin : Int)
  | delayMs (ms : Nat)
  | txParam (cmd : Nat) (data : List Nat)
  | rxParam (cmd : Nat) (len : Nat)
  | logOverrideWarn (cmd : Nat)
  | callDelegateInit
  | callDelegateDel
  | allocPanelState
  | freePanelState
  | createDpiPanel
deriving DecidableEq

/-! ## Data model -/

/-- One entry of a vendor init command list: register code, parameter
bytes, the number of parameter bytes actually sent (data_bytes may be
smaller than the length of the data array, e.g. 0 for the sleep-out and
display-on entries of the built-in table), and the post-write delay. -/
structure esp_panel_lcd_vendor_init_cmd_t where
  cmd : Nat
  data : List Nat
  data_bytes : Nat
  delay_ms : Nat
deriving DecidableEq

/-- The adapter's own state record (st7701_panel_t).  The io handle is
modelled by the flag io_live (whether the transport reference is non-null);
init_cmds = none models a NULL caller command list, in which case the
built-in default table is used. -/
structure st7701_panel_t where
  reset_gpio_num : Int
  madctl_val : Nat
  colmod_val : Nat
  init_cmds : Option (List esp_panel_lcd_vendor_init_cmd_t)
  reset_level : Bool
  io_live : Bool
deriving DecidableEq

/-- Result of one lifecycle operation: the returned status, the panel
state's two register fields after the call, and the emitted event trace. -/
structure OpOut where
  ret : EspRet
  madctl_val : Nat
  colmod_val : Nat
  events : List Event
deriving DecidableEq

/-! ## Construction (esp_lcd_new_panel_st7701_mipi) -/

/-- Construction-time configuration (the fields of
esp_lcd_panel_dev_config_t and its vendor_config the driver reads). -/
structure esp_lcd_panel_dev_config_t where
  reset_gpio_num : Int
  color_space : Nat
  bits_per_pixel : Nat
  reset_active_high : Bool
  init_cmds : Option (List esp_panel_lcd_vendor_init_cmd_t)
deriving DecidableEq

/-- Environment oracle for construction: non-nullness of the pointer
arguments and the results of the fallible collaborators (calloc,
gpio_config, esp_lcd_new_panel_dpi; none = success). -/
structure ConstructEnv where
  io_nonnull : Bool
  cfg_nonnull : Bool
  ret_nonnull : Bool
  vendor_nonnull : Bool
  dpi_cfg_nonnull : Bool
  dsi_bus_nonnull : Bool
  allocOk : Bool
  gpioRes : Option Nat
  dpiRes : Option Nat

/-- All pointers valid, every collaborator succeeds. -/
def envAllOk : ConstructEnv :=
  ⟨true, true, true, true, true, true, true, none, none⟩

/-- Result of construction: status, the attached panel state (some st on
success, none on failure) and the event trace. -/
structure ConstructOut where
  ret : EspRet
  panel : Option st7701_panel_t
  events : List Event
deriving DecidableEq

/-- The color_space switch: RGB gives madctl 0, BGR sets the BGR bit,
anything else is unsupported. -/
def madctl_of_color_space (cs : Nat) : Option Nat :=
  if cs = LCD_RGB_ELEMENT_ORDER_RGB then some 0
  else if cs = LCD_RGB_ELEMENT_ORDER_BGR then some (0 ||| LCD_CMD_BGR_BIT)
  else none

/-- The bits_per_pixel switch: 16/18/24 map to 0x55/0x66/0x77, anything
else is unsupported. -/
def colmod_of_bpp (bpp : Nat) : Option Nat :=
  if bpp = 16 then some 0x55
  else if bpp = 18 then some 0x66
  else if bpp = 24 then some 0x77
  else none

/-- The events of the err label: gpio_reset_pin when a reset pin was
configured.  Mirrors that the C error path does NOT free the calloc'd
record. -/
def constructErrEvents (cfg : esp_lcd_panel_dev_config_t) : List Event :=
  if 0 ≤ cfg.reset_gpio_num then [Event.gpioResetPin cfg.reset_gpio_num] else []

/-- esp_lcd_new_panel_st7701_mipi: argument checks, calloc, optional GPIO
configuration, the two switches, field assignments, DPI-panel creation and
function-pointer interception (the interception itself is state-internal;
its observable result is the returned panel state). -/
def esp_lcd_new_panel_st7701_mipi (env : ConstructEnv)
    (cfg : esp_lcd_panel_dev_config_t) : ConstructOut :=
  if !(env.io_nonnull && env.cfg_nonnull && env.ret_nonnull) then
    ⟨.invalidArg, none, []⟩
  else if !(env.vendor_nonnull && env.dpi_cfg_nonnull && env.dsi_bus_nonnull) then
    ⟨.invalidArg, none, []⟩
  else if !env.allocOk then
    ⟨.noMem, none, []⟩
  else
    let evAlloc := [Event.allocPanelState]
    let evGpio :=
      if 0 ≤ cfg.reset_gpio_num then [Event.gpioConfigOut cfg.reset_gpio_num] else []
    match (if 0 ≤ cfg.reset_gpio_num then env.gpioRes else none) with
    | some code => ⟨.extErr code, none, evAlloc ++ evGpio ++ constructErrEvents cfg⟩
    | none =>
      match madctl_of_color_space cfg.color_space with
      | none => ⟨.notSupported, none, evAlloc ++ evGpio ++ constructErrEvents cfg⟩
      | some madctl =>
        match colmod_of_bpp cfg.bits_per_pixel with
        | none => ⟨.notSupported, none, evAlloc ++ evGpio ++ constructErrEvents cfg⟩
        | some colmod =>
          match env.dpiRes with
          | some code =>
            ⟨.extErr code, none,
             evAlloc ++ evGpio ++ [Event.createDpiPanel] ++ constructErrEvents cfg⟩
          | none =>
            ⟨.ok,
             some ⟨cfg.reset_gpio_num, madctl, colmod, cfg.init_cmds,
                   cfg.reset_active_high, true⟩,
             evAlloc ++ evGpio ++ [Event.createDpiPanel]⟩

/-! ## Deletion and reset -/

/-- panel_st7701_del: releases the reset GPIO if configured, forwards to
the captured delegate delete, frees the record, always returns ESP_OK. -/
def panel_st7701_del (st : st7701_panel_t) : EspRet × List Event :=
  (.ok,
   (if 0 ≤ st.reset_gpio_num then [Event.gpioResetPin st.reset_gpio_num] else [])
     ++ [Event.callDelegateDel, Event.freePanelState])

/-- panel_st7701_reset: hardware reset via the GPIO when one is
configured; otherwise software reset over the transport when it is live;
otherwise success with no action.  tx0 is the transport's result for the
software-reset transaction (none = success). -/
def panel_st7701_reset (tx0 : Option Nat) (st : st7701_panel_t) : OpOut :=
  if 0 ≤ st.reset_gpio_num then
    ⟨.ok, st.madctl_val, st.colmod_val,
     [Event.gpioSetLevel st.reset_gpio_num st.reset_level,
      Event.delayMs 10,
      Event.gpioSetLevel st.reset_gpio_num (!st.reset_level),
      Event.delayMs 10]⟩
  else if st.io_live then
    match tx0 with
    | some code =>
      ⟨.extErr code, st.madctl_val, st.colmod_val, [Event.txParam LCD_CMD_SWRESET []]⟩
    | none =>
      ⟨.ok, st.madctl_val, st.colmod_val,
       [Event.txParam LCD_CMD_SWRESET [], Event.delayMs 20]⟩
  else
    ⟨.ok, st.madctl_val, st.colmod_val, []⟩

/-! ## The initialize replay loop -/

/-- One step of the command-group-2 bookkeeping (end of each loop
iteration): a page-select entry with more than 4 parameter bytes sets the
is_command2_disable flag from the negation of the CN2 bit of its 5th
parameter byte; every other entry leaves the flag unchanged. -/
def cmd2DisableAfter (dis : Bool) (e : esp_panel_lcd_vendor_init_cmd_t) : Bool :=
  if e.cmd = ST7701_CMD_CND2BKxSEL ∧ 4 < e.data_bytes then
    decide ((e.data.getD 4 0) &&& ST7701_CMD_CN2_BIT = 0)
  else dis

/-- The is_command2_disable flag after processing a list of entries,
starting from flag value dis.  The loop starts with the flag true. -/
def cmd2From (dis : Bool) (L : List esp_panel_lcd_vendor_init_cmd_t) : Bool :=
  L.foldl cmd2DisableAfter dis

/-- The replay loop of panel_st7701_init.  txL gives the transport result
for each successive entry (headD none; the empty list means every
transaction succeeds).  While is_command2_disable is true, an entry with
parameter bytes targeting MADCTL or COLMOD overwrites the corresponding
in-memory register value (stored through a uint8_t, hence mod 256) and
logs an override warning; then the entry is sent and the loop sleeps for
its delay; then the flag is updated from page-select entries. -/
def replay (txL : List (Option Nat)) (dis : Bool) (m c : Nat) :
    List esp_panel_lcd_vendor_init_cmd_t → OpOut
  | [] => ⟨.ok, m, c, []⟩
  | e :: rest =>
    let m' := if dis = true ∧ 0 < e.data_bytes ∧ e.cmd = LCD_CMD_MADCTL then
                (e.data.getD 0 0) % 256 else m
    let c' := if dis = true ∧ 0 < e.data_bytes ∧ e.cmd = LCD_CMD_COLMOD then
                (e.data.getD 0 0) % 256 else c
    let warns := if dis = true ∧ 0 < e.data_bytes
                    ∧ (e.cmd = LCD_CMD_MADCTL ∨ e.cmd = LCD_CMD_COLMOD) then
                   [Event.logOverrideWarn e.cmd] else []
    let sendEv := Event.txParam e.cmd (e.data.take e.data_bytes)
    match txL.headD none with
    | some code => ⟨.extErr code, m', c', warns ++ [sendEv]⟩
    | none =>
      let o := replay txL.tail (cmd2DisableAfter dis e) m' c' rest
      ⟨o.ret, o.madctl_val, o.colmod_val,
       warns ++ [sendEv, Event.delayMs e.delay_ms] ++ o.events⟩

/-- The built-in default init table (vendor_specific_init_default),
reproduced entry for entry from the source. -/
def vendor_specific_init_default : List esp_panel_lcd_vendor_init_cmd_t :=
  [⟨0xFF, [0x77, 0x01, 0x00, 0x00, 0x13], 5, 0⟩,
   ⟨0xEF, [0x08], 1, 0⟩,
   ⟨0xFF, [0x77, 0x01, 0x00, 0x00, 0x10], 5, 0⟩,
   ⟨0xC0, [0x2c, 0x00], 2, 0⟩,
   ⟨0xC1, [0x10, 0x0C], 2, 0⟩,
   ⟨0xC2, [0x21, 0x0A], 2, 0⟩,
   ⟨0xCC, [0x10], 1, 0⟩,
   ⟨0xB0, [0x00, 0x0B, 0x12, 0x0D, 0x10, 0x06, 0x02, 0x08,
           0x07, 0x1F, 0x04, 0x11, 0x0F, 0x29, 0x31, 0x1E], 16, 0⟩,
   ⟨0xB1, [0x00, 0x0B, 0x13, 0x0D, 0x11, 0x06, 0x03, 0x08,
           0x07, 0x20, 0x04, 0x12, 0x11, 0x29, 0x31, 0x1E], 16, 0⟩,
   ⟨0xFF, [0x77, 0x01, 0x00, 0x00, 0x11], 5, 0⟩,
   ⟨0xB0, [0x5D], 1, 0⟩,
   ⟨0xB1, [0x72], 1, 0⟩,
   ⟨0xB2, [0x84], 1, 0⟩,
   ⟨0xB3, [0x80], 1, 0⟩,
   ⟨0xB5, [0x4D], 1, 0⟩,
   ⟨0xB7, [0x85], 1, 0⟩,
   ⟨0xB8, [0x20], 1, 0⟩,
   ⟨0xC1, [0x78], 1, 0⟩,
   ⟨0xC2, [0x78], 1, 0⟩,
   ⟨0xD0, [0x88], 1, 0⟩,
   ⟨0xE0, [0x80, 0x00, 0x02], 3, 0⟩,
   ⟨0xE1, [0x05, 0x00, 0x07, 0x00, 0x06, 0x00, 0x08, 0x00, 0x00, 0x33, 0x33], 11, 0⟩,
   ⟨0xE2, [0x00, 0x00, 0x30, 0x30, 0x01, 0x00, 0x00, 0x00,
           0x01, 0x00, 0x00, 0x00], 12, 0⟩,
   ⟨0xE3, [0x00, 0x00, 0x11, 0x11], 4, 0⟩,
   ⟨0xE4, [0x44, 0x44], 2, 0⟩,
   ⟨0xE5, [0x0C, 0x78, 0x00, 0xE0, 0x0E, 0x7A, 0x00, 0xE0,
           0x08, 0x74, 0x00, 0xE0, 0x0A, 0x76, 0x00, 0xE0], 16, 0⟩,
   ⟨0xE6, [0x00, 0x00, 0x11, 0x11], 4, 0⟩,
   ⟨0xE7, [0x44, 0x44], 2, 0⟩,
   ⟨0xE8, [0x0D, 0x79, 0x00, 0xE0, 0x0F, 0x7B, 0x00, 0xE0,
           0x09, 0x75, 0x00, 0xE0, 0x0B, 0x77, 0x00, 0xE0], 16, 0⟩,
   ⟨0xE9, [0x36, 0x00], 2, 0⟩,
   ⟨0xEB, [0x00, 0x01, 0xE4, 0xE4, 0x44, 0x88, 0x40], 7, 0⟩,
   ⟨0xED, [0xA1, 0xC2, 0xFB, 0x0F, 0x67, 0x45, 0xFF, 0xFF,
           0xFF, 0xFF, 0x54, 0x76, 0xF0, 0xBF, 0x2C, 0x1A], 16, 0⟩,
   ⟨0xEF, [0x10, 0x0D, 0x04, 0x08, 0x3F, 0x1F], 6, 0⟩,
   ⟨0xFF, [0x77, 0x01, 0x00, 0x00, 0x13], 5, 0⟩,
   ⟨0xE8, [0x00, 0x0E], 2, 0⟩,
   ⟨0xE8, [0x00, 0x0C], 2, 20⟩,
   ⟨0xE8, [0x00, 0x00], 2, 0⟩,
   ⟨0xFF, [0x77, 0x01, 0x00, 0x00, 0x00], 5, 0⟩,
   ⟨0x11, [0x00], 0, 120⟩,
   ⟨0x29, [0x00], 0, 0⟩]

/-- panel_st7701_init: reads the 3-byte chip ID, returns the page selector
to page 0, writes the current MADCTL and COLMOD values, replays the active
command list (caller-supplied if present, else the built-in default
table), and finally forwards to the captured delegate initialize.  rxRes,
tx0-tx2, txL and dgRes are the oracles for the ID read, the three prefix
writes, the per-entry loop writes, and the delegate (none = success). -/
def panel_st7701_init (rxRes tx0 tx1 tx2 : Option Nat) (txL : List (Option Nat))
    (dgRes : Option Nat) (st : st7701_panel_t) : OpOut :=
  let evRx := Event.rxParam 0x04 3
  match rxRes with
  | some code => ⟨.extErr code, st.madctl_val, st.colmod_val, [evRx]⟩
  | none =>
    let evPage := Event.txParam ST7701_CMD_CND2BKxSEL
      [ST7701_CMD_BKxSEL_BYTE0, ST7701_CMD_BKxSEL_BYTE1,
       ST7701_CMD_BKxSEL_BYTE2, ST7701_CMD_BKxSEL_BYTE3, 0x00]
    match tx0 with
    | some code => ⟨.extErr code, st.madctl_val, st.colmod_val, [evRx, evPage]⟩
    | none =>
      let evMad := Event.txParam LCD_CMD_MADCTL [st.madctl_val]
      match tx1 with
      | some code => ⟨.extErr code, st.madctl_val, st.colmod_val, [evRx, evPage, evMad]⟩
      | none =>
        let evCol := Event.txParam LCD_CMD_COLMOD [st.colmod_val]
        match tx2 with
        | some code =>
          ⟨.extErr code, st.madctl_val, st.colmod_val, [evRx, evPage, evMad, evCol]⟩
        | none =>
          let cmds := st.init_cmds.getD vendor_specific_init_default
          let o := replay txL true st.madctl_val st.colmod_val cmds
          match o.ret with
          | .ok =>
            match dgRes with
            | some code =>
              ⟨.extErr code, o.madctl_val, o.colmod_val,
               [evRx, evPage, evMad, evCol] ++ o.events ++ [Event.callDelegateInit]⟩
            | none =>
              ⟨.ok, o.madctl_val, o.colmod_val,
               [evRx, evPage, evMad, evCol] ++ o.events ++ [Event.callDelegateInit]⟩
          | r => ⟨r, o.madctl_val, o.colmod_val, [evRx, evPage, evMad, evCol] ++ o.events⟩

/-! ## Mirror -/

/-- panel_st7701_mirror: fails (ESP_FAIL) with no action when the
transport reference is gone; otherwise computes the scan-direction byte
from mirror_x, updates the vertical-mirror bit of madctl_val from
mirror_y, and performs four writes: enable command-2 bank 0, write SDIR,
disable command-2 (back to page 0), rewrite MADCTL.  tx0-tx3 are the
transport results for the four writes in order. -/
def panel_st7701_mirror (tx0 tx1 tx2 tx3 : Option Nat) (st : st7701_panel_t)
    (mirror_x mirror_y : Bool) : OpOut :=
  if st.io_live then
    let sdir_val := if mirror_x then ST7701_CMD_SS_BIT else 0
    let madctl' := if mirror_y then st.madctl_val ||| LCD_CMD_ML_BIT
                   else st.madctl_val &&& (255 ^^^ LCD_CMD_ML_BIT)
    let w0 := Event.txParam ST7701_CMD_CND2BKxSEL
      [ST7701_CMD_BKxSEL_BYTE0, ST7701_CMD_BKxSEL_BYTE1,
       ST7701_CMD_BKxSEL_BYTE2, ST7701_CMD_BKxSEL_BYTE3,
       ST7701_CMD_BKxSEL_BK0 ||| ST7701_CMD_CN2_BIT]
    let w1 := Event.txParam ST7701_CMD_SDIR [sdir_val]
    let w2 := Event.txParam ST7701_CMD_CND2BKxSEL
      [ST7701_CMD_BKxSEL_BYTE0, ST7701_CMD_BKxSEL_BYTE1,
       ST7701_CMD_BKxSEL_BYTE2, ST7701_CMD_BKxSEL_BYTE3, 0]
    let w3 := Event.txParam LCD_CMD_MADCTL [madctl']
    match tx0 with
    | some code => ⟨.extErr code, madctl', st.colmod_val, [w0]⟩
    | none =>
      match tx1 with
      | some code => ⟨.extErr code, madctl', st.colmod_val, [w0, w1]⟩
      | none =>
        match tx2 with
        | some code => ⟨.extErr code, madctl', st.colmod_val, [w0, w1, w2]⟩
        | none =>
          match tx3 with
          | some code => ⟨.extErr code, madctl', st.colmod_val, [w0, w1, w2, w3]⟩
          | none => ⟨.ok, madctl', st.colmod_val, [w0, w1, w2, w3]⟩
  else ⟨.fail, st.madctl_val, st.colmod_val, []⟩

/-! ## Trace helpers -/

/-- Number of override warnings in a trace. -/
def warnCount (evs : List Event) : Nat :=
  (evs.filter fun e => match e with | .logOverrideWarn _ => true | _ => false).length

/-- Number of transport command writes in a trace. -/
def txCount (evs : List Event) : Nat :=
  (evs.filter fun e => match e with | .txParam _ _ => true | _ => false).length

/-- The trace of replaying a table in order with no failure and no
override: for each entry, its write followed by its delay. -/
def tableTrace : List esp_panel_lcd_vendor_init_cmd_t → List Event
  | [] => []
  | e :: rest =>
    Event.txParam e.cmd (e.data.take e.data_bytes) :: Event.delayMs e.delay_ms
      :: tableTrace rest

/-- A group-2-disable entry in the sense of the spec: a page-select entry
with more than four parameter bytes whose 5th byte has the CN2 bit set
(after it, the loop's is_command2_disable flag is false and the override
detection is suppressed). -/
def isCmd2DisableEntry (e : esp_panel_lcd_vendor_init_cmd_t) : Prop :=
  e.cmd = ST7701_CMD_CND2BKxSEL ∧ 4 < e.data_bytes
    ∧ (e.data.getD 4 0) &&& ST7701_CMD_CN2_BIT ≠ 0

instance (e : esp_panel_lcd_vendor_init_cmd_t) : Decidable ( isCmd2DisableEntry e) := by
  unfold isCmd2DisableEntry; infer_instance

/-- An entry that re-enables the override detection: a page-select entry
with more than four parameter bytes whose 5th byte has the CN2 bit clear
(after it, the loop's is_command2_disable flag is true again). -/
def isCmd2EnableEntry (e : esp_panel_lcd_vendor_init_cmd_t) : Prop :=
  e.cmd = ST7701_CMD_CND2BKxSEL ∧ 4 < e.data_bytes
    ∧ (e.data.getD 4 0) &&& ST7701_CMD_CN2_BIT = 0

instance (e : esp_panel_lcd_vendor_init_cmd_t) : Decidable ( isCmd2EnableEntry e) := by
  unfold isCmd2EnableEntry; infer_instance

/-- One mirror call of a sequence: the four transport results, whether the
transport reference is still live at the time of the call, and the two
arguments. -/
structure MirrorCall where
  tx0 : Option Nat
  tx1 : Option Nat
  tx2 : Option Nat
  tx3 : Option Nat
  io_live : Bool
  mirror_x : Bool
  mirror_y : Bool

/-- The panel state after a sequence of mirror calls (each call may find
the transport live or torn down and may fail at any of its writes; the
only state field mirror can change is madctl_val). -/
def runMirrors : st7701_panel_t → List MirrorCall → st7701_panel_t
  | st, [] => st
  | st, k :: rest =>
    let st' := { st with io_live := k.io_live }
    runMirrors
      { st' with
        madctl_val :=
          (panel_st7701_mirror k.tx0 k.tx1 k.tx2 k.tx3 st' k.mirror_x k.mirror_y).madctl_val }
      rest

/-! ## Bitwise helper lemmas -/

lemma natAndOrRight (a b c : Nat) : (a ||| b) &&& c = (a &&& c) ||| (b &&& c) := by
  apply Nat.eq_of_testBit_eq
  intro i
  rw [Nat.testBit_and, Nat.testBit_or, Nat.testBit_or, Nat.testBit_and, Nat.testBit_and]
  cases a.testBit i <;> cases b.testBit i <;> cases c.testBit i <;> simp

lemma madctlOr_ml (m : Nat) :
    (m ||| LCD_CMD_ML_BIT) &&& LCD_CMD_ML_BIT = LCD_CMD_ML_BIT := by
  rw [natAndOrRight]
  have h1 : LCD_CMD_ML_BIT &&& LCD_CMD_ML_BIT = LCD_CMD_ML_BIT := by decide
  rw [h1]
  apply Nat.eq_of_testBit_eq
  intro i
  rw [Nat.testBit_or, Nat.testBit_and]
  cases m.testBit i <;> cases Nat.testBit LCD_CMD_ML_BIT i <;> simp

lemma madctlAnd_ml (m : Nat) :
    (m &&& (255 ^^^ LCD_CMD_ML_BIT)) &&& LCD_CMD_ML_BIT = 0 := by
  rw [Nat.and_assoc]
  have h1 : (255 ^^^ LCD_CMD_ML_BIT) &&& LCD_CMD_ML_BIT = 0 := by decide
  rw [h1, Nat.and_zero]

lemma madctlOr_bgr (m : Nat) :
    (m ||| LCD_CMD_ML_BIT) &&& LCD_CMD_BGR_BIT = m &&& LCD_CMD_BGR_BIT := by
  rw [natAndOrRight]
  have h1 : LCD_CMD_ML_BIT &&& LCD_CMD_BGR_BIT = 0 := by decide
  rw [h1, Nat.or_zero]

lemma madctlAnd_bgr (m : Nat) :
    (m &&& (255 ^^^ LCD_CMD_ML_BIT)) &&& LCD_CMD_BGR_BIT = m &&& LCD_CMD_BGR_BIT := by
  rw [Nat.and_assoc]
  have h1 : (255 ^^^ LCD_CMD_ML_BIT) &&& LCD_CMD_BGR_BIT = LCD_CMD_BGR_BIT := by decide
  rw [h1]

/-! ## Mirror state lemmas -/

lemma mirror_madctl_val (tx0 tx1 tx2 tx3 : Option Nat) (st : st7701_panel_t)
    (mx my : Bool) (h : st.io_live = true) :
    (panel_st7701_mirror tx0 tx1 tx2 tx3 st mx my).madctl_val
      = if my then st.madctl_val ||| LCD_CMD_ML_BIT
        else st.madctl_val &&& (255 ^^^ LCD_CMD_ML_BIT) := by
  simp only [panel_st7701_mirror, h, if_true]
  cases tx0 <;> cases tx1 <;> cases tx2 <;> cases tx3 <;> rfl

lemma mirror_preserves_bgr (tx0 tx1 tx2 tx3 : Option Nat) (st : st7701_panel_t)
    (mx my : Bool) :
    (panel_st7701_mirror tx0 tx1 tx2 tx3 st mx my).madctl_val &&& LCD_CMD_BGR_BIT
      = st.madctl_val &&& LCD_CMD_BGR_BIT := by
  by_cases h : st.io_live = true
  · rw [mirror_madctl_val tx0 tx1 tx2 tx3 st mx my h]
    cases my
    · simp [madctlAnd_bgr]
    · simp [madctlOr_bgr]
  · have h' : st.io_live = false := by
      cases hh : st.io_live
      · rfl
      · exact absurd hh h
    simp [panel_st7701_mirror, h']

lemma runMirrors_preserves_bgr (calls : List MirrorCall) :
    ∀ st : st7701_panel_t,
      (runMirrors st calls).madctl_val &&& LCD_CMD_BGR_BIT
        = st.madctl_val &&& LCD_CMD_BGR_BIT := by
  induction calls with
  | nil => intro st; rfl
  | cons k rest ih =>
    intro st
    simp only [runMirrors]
    rw [ih]
    exact mirror_preserves_bgr k.tx0 k.tx1 k.tx2 k.tx3
      { st with io_live := k.io_live } k.mirror_x k.mirror_y

/-! ## Replay decomposition lemmas -/

lemma cmd2From_nil (dis : Bool) : cmd2From dis [] = dis := rfl

lemma cmd2From_cons (dis : Bool) (e : esp_panel_lcd_vendor_init_cmd_t)
    (L : List esp_panel_lcd_vendor_init_cmd_t) :
    cmd2From dis (e :: L) = cmd2From (cmd2DisableAfter dis e) L := rfl

lemma cmd2From_append (dis : Bool) (L1 L2 : List esp_panel_lcd_vendor_init_cmd_t) :
    cmd2From dis (L1 ++ L2) = cmd2From (cmd2From dis L1) L2 := by
  simp [cmd2From, List.foldl_append]

lemma replay_append (dis : Bool) (m c : Nat)
    (L1 L2 : List esp_panel_lcd_vendor_init_cmd_t) :
    replay [] dis m c (L1 ++ L2)
      = ⟨(replay [] (cmd2From dis L1) (replay [] dis m c L1).madctl_val
            (replay [] dis m c L1).colmod_val L2).ret,
         (replay [] (cmd2From dis L1) (replay [] dis m c L1).madctl_val
            (replay [] dis m c L1).colmod_val L2).madctl_val,
         (replay [] (cmd2From dis L1) (replay [] dis m c L1).madctl_val
            (replay [] dis m c L1).colmod_val L2).colmod_val,
         (replay [] dis m c L1).events
           ++ (replay [] (cmd2From dis L1) (replay [] dis m c L1).madctl_val
                 (replay [] dis m c L1).colmod_val L2).events⟩ := by
  induction L1 generalizing dis m c with
  | nil => simp [replay, cmd2From]
  | cons e L1 ih =>
    simp only [List.cons_append, replay, List.headD_nil, List.tail_nil, cmd2From_cons,
      List.append_eq]
    rw [ih]
    simp [List.append_assoc]

lemma warnCount_append (a b : List Event) :
    warnCount (a ++ b) = warnCount a + warnCount b := by
  simp [warnCount, List.filter_append]

lemma replay_snoc_warnCount (m c : Nat) (Q : List esp_panel_lcd_vendor_init_cmd_t)
    (f : esp_panel_lcd_vendor_init_cmd_t) :
    warnCount (replay [] true m c (Q ++ [f])).events
      = warnCount (replay [] true m c Q).events
        + (if cmd2From true Q = true ∧ 0 < f.data_bytes
              ∧ (f.cmd = LCD_CMD_MADCTL ∨ f.cmd = LCD_CMD_COLMOD) then 1 else 0) := by
  rw [replay_append]
  show warnCount ((replay [] true m c Q).events ++ _) = _
  rw [warnCount_append]
  by_cases hc : cmd2From true Q = true ∧ 0 < f.data_bytes
      ∧ (f.cmd = LCD_CMD_MADCTL ∨ f.cmd = LCD_CMD_COLMOD)
  · simp [replay, warnCount, hc]
  · simp [replay, warnCount, hc]

lemma replay_snoc_madctl (m c : Nat) (Q : List esp_panel_lcd_vendor_init_cmd_t)
    (f : esp_panel_lcd_vendor_init_cmd_t) :
    (replay [] true m c (Q ++ [f])).madctl_val
      = if cmd2From true Q = true ∧ 0 < f.data_bytes ∧ f.cmd = LCD_CMD_MADCTL
        then f.data.getD 0 0 % 256 else (replay [] true m c Q).madctl_val := by
  rw [replay_append]
  by_cases hc : cmd2From true Q = true ∧ 0 < f.data_bytes ∧ f.cmd = LCD_CMD_MADCTL
  · simp [replay, hc]
  · simp [replay, hc]

lemma replay_snoc_colmod (m c : Nat) (Q : List esp_panel_lcd_vendor_init_cmd_t)
    (f : esp_panel_lcd_vendor_init_cmd_t) :
    (replay [] true m c (Q ++ [f])).colmod_val
      = if cmd2From true Q = true ∧ 0 < f.data_bytes ∧ f.cmd = LCD_CMD_COLMOD
        then f.data.getD 0 0 % 256 else (replay [] true m c Q).colmod_val := by
  rw [replay_append]
  by_cases hc : cmd2From true Q = true ∧ 0 < f.data_bytes ∧ f.cmd = LCD_CMD_COLMOD
  · simp [replay, hc]
  · simp [replay, hc]

lemma cmd2DisableAfter_of_disable (dis : Bool) (d : esp_panel_lcd_vendor_init_cmd_t)
    (hd : isCmd2DisableEntry d) : cmd2DisableAfter dis d = false := by
  obtain ⟨h1, h2, h3⟩ := hd
  rw [List.getD_eq_getElem?_getD] at h3
  simp [cmd2DisableAfter, h1, h2, h3]

lemma cmd2From_false_of_no_enable (L : List esp_panel_lcd_vendor_init_cmd_t)
    (hL : ∀ x ∈ L, ¬ isCmd2EnableEntry x) : cmd2From false L = false := by
  induction L with
  | nil => rfl
  | cons e L ih =>
    rw [cmd2From_cons]
    have he : cmd2DisableAfter false e = false := by
      by_cases hg : e.cmd = ST7701_CMD_CND2BKxSEL ∧ 4 < e.data_bytes
      · have hbit : (e.data.getD 4 0) &&& ST7701_CMD_CN2_BIT ≠ 0 := by
          intro hz
          exact hL e (List.mem_cons_self e L) ⟨hg.1, hg.2, hz⟩
        rw [List.getD_eq_getElem?_getD] at hbit
        simp [cmd2DisableAfter, hg, hbit]
      · simp [cmd2DisableAfter, hg]
    rw [he]
    exact ih fun x hx => hL x (List.mem_cons_of_mem e hx)

/-! ## Claim theorems -/

/-- C4: reset behaves by cases: with a configured reset GPIO it drives the
pin to the active level, waits 10ms, drives it to the inactive level,
waits 10ms, and sends no transport command; with no GPIO but a live
transport it sends exactly one software-reset command and then waits 20ms;
with neither available it returns success having performed no action. -/
theorem reset_behaves_by_cases (st : st7701_panel_t) (tx0 : Option Nat) :
    (0 ≤ st.reset_gpio_num →
       panel_st7701_reset tx0 st
         = ⟨.ok, st.madctl_val, st.colmod_val,
            [Event.gpioSetLevel st.reset_gpio_num st.reset_level,
             Event.delayMs 10,
             Event.gpioSetLevel st.reset_gpio_num (!st.reset_level),
             Event.delayMs 10]⟩
       ∧ txCount (panel_st7701_reset tx0 st).events = 0)
    ∧ (st.reset_gpio_num < 0 → st.io_live = true →
       panel_st7701_reset none st
         = ⟨.ok, st.madctl_val, st.colmod_val,
            [Event.txParam LCD_CMD_SWRESET [], Event.delayMs 20]⟩
       ∧ txCount (panel_st7701_reset none st).events = 1)
    ∧ (st.reset_gpio_num < 0 → st.io_live = false →
       panel_st7701_reset tx0 st = ⟨.ok, st.madctl_val, st.colmod_val, []⟩) := by
  refine ⟨fun h => ?_, fun h hio => ?_, fun h hio => ?_⟩
  · have h2 : panel_st7701_reset tx0 st
        = ⟨.ok, st.madctl_val, st.colmod_val,
           [Event.gpioSetLevel st.reset_gpio_num st.reset_level,
            Event.delayMs 10,
            Event.gpioSetLevel st.reset_gpio_num (!st.reset_level),
            Event.delayMs 10]⟩ := by
      unfold panel_st7701_reset
      rw [if_pos h]
    exact ⟨h2, by rw [h2]; rfl⟩
  · have h' : ¬ (0 ≤ st.reset_gpio_num) := by omega
    have h2 : panel_st7701_reset none st
        = ⟨.ok, st.madctl_val, st.colmod_val,
           [Event.txParam LCD_CMD_SWRESET [], Event.delayMs 20]⟩ := by
      unfold panel_st7701_reset
      rw [if_neg h']
      simp [hio]
    exact ⟨h2, by rw [h2]; rfl⟩
  · have h' : ¬ (0 ≤ st.reset_gpio_num) := by omega
    unfold panel_st7701_reset
    rw [if_neg h']
    simp [hio]

/-- Witness for reset_behaves_by_cases: the three cases evaluated at
concrete panel states. -/
theorem reset_behaves_by_cases_witness :
    (panel_st7701_reset none ⟨5, 0, 0x55, none, true, true⟩
       = ⟨.ok, 0, 0x55,
          [Event.gpioSetLevel 5 true, Event.delayMs 10,
           Event.gpioSetLevel 5 false, Event.delayMs 10]⟩)
    ∧ (panel_st7701_reset none ⟨-1, 0, 0x55, none, false, true⟩
       = ⟨.ok, 0, 0x55, [Event.txParam LCD_CMD_SWRESET [], Event.delayMs 20]⟩)
    ∧ (panel_st7701_reset none ⟨-1, 0, 0x55, none, false, false⟩
       = ⟨.ok, 0, 0x55, []⟩) :=
  ⟨((reset_behaves_by_cases ⟨5, 0, 0x55, none, true, true⟩ none).1 (by decide)).1,
   ((reset_behaves_by_cases ⟨-1, 0, 0x55, none, false, true⟩ none).2.1 (by decide) rfl).1,
   (reset_behaves_by_cases ⟨-1, 0, 0x55, none, false, false⟩ none).2.2 (by decide) rfl⟩

/-- C5: for every mirrorX and mirrorY argument, calling mirror when the
transport reference has been cleared returns the generic failure without
attempting any transport write and without modifying the in-memory
orientation register. -/
theorem mirror_fails_without_transport (tx0 tx1 tx2 tx3 : Option Nat)
    (st : st7701_panel_t) (mx my : Bool) (h : st.io_live = false) :
    panel_st7701_mirror tx0 tx1 tx2 tx3 st mx my
      = ⟨.fail, st.madctl_val, st.colmod_val, []⟩ := by
  simp [panel_st7701_mirror, h]

/-- Witness for mirror_fails_without_transport at a concrete state. -/
theorem mirror_fails_without_transport_witness :
    (⟨-1, 9, 0x55, none, false, false⟩ : st7701_panel_t).io_live = false
    ∧ panel_st7701_mirror none none none none
        ⟨-1, 9, 0x55, none, false, false⟩ true true
      = ⟨.fail, 9, 0x55, []⟩ :=
  ⟨rfl, mirror_fails_without_transport none none none none
    ⟨-1, 9, 0x55, none, false, false⟩ true true rfl⟩

/-- C7: mirror(true,false) writes a scan-direction byte equal to the
designated bit (so the bit is set) and leaves the vertical-mirror bit of
the orientation register clear; mirror(false,true) writes a zero
scan-direction byte (the bit clear) and sets the vertical-mirror bit. -/
theorem mirror_sdir_and_ml_bits (st : st7701_panel_t) (h : st.io_live = true) :
    ((panel_st7701_mirror none none none none st true false).events[1]?
        = some (Event.txParam ST7701_CMD_SDIR [ST7701_CMD_SS_BIT]))
    ∧ (panel_st7701_mirror none none none none st true false).madctl_val
        &&& LCD_CMD_ML_BIT = 0
    ∧ ((panel_st7701_mirror none none none none st false true).events[1]?
        = some (Event.txParam ST7701_CMD_SDIR [0]))
    ∧ (panel_st7701_mirror none none none none st false true).madctl_val
        &&& LCD_CMD_ML_BIT = LCD_CMD_ML_BIT := by
  refine ⟨?_, ?_, ?_, ?_⟩
  · simp [panel_st7701_mirror, h]
  · simp [panel_st7701_mirror, h, madctlAnd_ml]
  · simp [panel_st7701_mirror, h]
  · simp [panel_st7701_mirror, h, madctlOr_ml]

/-- Witness for mirror_sdir_and_ml_bits at a concrete state. -/
theorem mirror_sdir_and_ml_bits_witness :
    (⟨-1, 0x18, 0x55, none, false, true⟩ : st7701_panel_t).io_live = true
    ∧ ((panel_st7701_mirror none none none none
          ⟨-1, 0x18, 0x55, none, false, true⟩ true false).events[1]?
        = some (Event.txParam ST7701_CMD_SDIR [ST7701_CMD_SS_BIT]))
    ∧ (panel_st7701_mirror none none none none
          ⟨-1, 0x18, 0x55, none, false, true⟩ true false).madctl_val
        &&& LCD_CMD_ML_BIT = 0 :=
  ⟨rfl,
   (mirror_sdir_and_ml_bits ⟨-1, 0x18, 0x55, none, false, true⟩ rfl).1,
   (mirror_sdir_and_ml_bits ⟨-1, 0x18, 0x55, none, false, true⟩ rfl).2.1⟩

/-- C9: mirror updates the vertical-mirror bit of the in-memory
orientation register before issuing any of its four transport writes: if
the k-th write fails (k = 0..3), the operation returns that transport
error having attempted exactly the first k+1 writes, and for every
outcome the register holds the newly computed mirrorY bit (no rollback). -/
theorem mirror_error_keeps_new_madctl (st : st7701_panel_t) (code : Nat)
    (t1 t2 t3 : Option Nat) (mx my : Bool) (h : st.io_live = true) :
    ((panel_st7701_mirror (some code) t1 t2 t3 st mx my).ret = .extErr code
      ∧ (panel_st7701_mirror (some code) t1 t2 t3 st mx my).events.length = 1)
    ∧ ((panel_st7701_mirror none (some code) t2 t3 st mx my).ret = .extErr code
      ∧ (panel_st7701_mirror none (some code) t2 t3 st mx my).events.length = 2)
    ∧ ((panel_st7701_mirror none none (some code) t3 st mx my).ret = .extErr code
      ∧ (panel_st7701_mirror none none (some code) t3 st mx my).events.length = 3)
    ∧ ((panel_st7701_mirror none none none (some code) st mx my).ret = .extErr code
      ∧ (panel_st7701_mirror none none none (some code) st mx my).events.length = 4)
    ∧ (∀ u0 u1 u2 u3 : Option Nat,
        (panel_st7701_mirror u0 u1 u2 u3 st mx my).madctl_val &&& LCD_CMD_ML_BIT
          = if my then LCD_CMD_ML_BIT else 0) := by
  refine ⟨?_, ?_, ?_, ?_, fun u0 u1 u2 u3 => ?_⟩
  · simp [panel_st7701_mirror, h]
  · simp [panel_st7701_mirror, h]
  · simp [panel_st7701_mirror, h]
  · simp [panel_st7701_mirror, h]
  · rw [mirror_madctl_val u0 u1 u2 u3 st mx my h]
    cases my
    · simp [madctlAnd_ml]
    · simp [madctlOr_ml]

/-- Witness for mirror_error_keeps_new_madctl: a failure at the third
write with mirrorY = true keeps the vertical-mirror bit set. -/
theorem mirror_error_keeps_new_madctl_witness :
    (⟨-1, 0x08, 0x55, none, false, true⟩ : st7701_panel_t).io_live = true
    ∧ ((panel_st7701_mirror none none (some 7) none
          ⟨-1, 0x08, 0x55, none, false, true⟩ false true).ret = .extErr 7
      ∧ (panel_st7701_mirror none none (some 7) none
          ⟨-1, 0x08, 0x55, none, false, true⟩ false true).events.length = 3)
    ∧ (panel_st7701_mirror none none (some 7) none
          ⟨-1, 0x08, 0x55, none, false, true⟩ false true).madctl_val
        &&& LCD_CMD_ML_BIT = (if true then LCD_CMD_ML_BIT else 0) :=
  ⟨rfl,
   (mirror_error_keeps_new_madctl ⟨-1, 0x08, 0x55, none, false, true⟩ 7
      none (some 7) none false true rfl).2.2.1,
   (mirror_error_keeps_new_madctl ⟨-1, 0x08, 0x55, none, false, true⟩ 7
      none none (some 7) false true rfl).2.2.2.2 none none (some 7) none⟩

/-- Reduction of construction under the all-success environment: the
outcome is decided by the two switches. -/
lemma construct_envAllOk (cfg : esp_lcd_panel_dev_config_t) :
    esp_lcd_new_panel_st7701_mipi envAllOk cfg
      = match madctl_of_color_space cfg.color_space with
        | none =>
          ⟨.notSupported, none,
           [Event.allocPanelState]
             ++ (if 0 ≤ cfg.reset_gpio_num then [Event.gpioConfigOut cfg.reset_gpio_num]
                 else [])
             ++ constructErrEvents cfg⟩
        | some madctl =>
          match colmod_of_bpp cfg.bits_per_pixel with
          | none =>
            ⟨.notSupported, none,
             [Event.allocPanelState]
               ++ (if 0 ≤ cfg.reset_gpio_num then [Event.gpioConfigOut cfg.reset_gpio_num]
                   else [])
               ++ constructErrEvents cfg⟩
          | some colmod =>
            ⟨.ok,
             some ⟨cfg.reset_gpio_num, madctl, colmod, cfg.init_cmds,
                   cfg.reset_active_high, true⟩,
             [Event.allocPanelState]
               ++ (if 0 ≤ cfg.reset_gpio_num then [Event.gpioConfigOut cfg.reset_gpio_num]
                   else [])
               ++ [Event.createDpiPanel]⟩ := by
  unfold esp_lcd_new_panel_st7701_mipi
  simp [envAllOk]

/-- C2 counterexample: the built-in default table has 40 entries, not 38
as the claim states. -/
theorem init_default_table_not_38_entries :
    vendor_specific_init_default.length = 40
    ∧ vendor_specific_init_default.length ≠ 38 := by decide

/-- C2 (amended): constructed with resetPin -1, colorOrder RGB,
bitsPerPixel 16 and no caller command list, initialize succeeds, replaying
exactly the 40-entry built-in default table in order with no override
(each entry's write followed by its delay), whose last two entries are
sleep-out with a 120ms post-delay followed by display-on with a 0ms
post-delay, and afterward forwards to the captured delegate-initialize. -/
theorem init_replays_default_table :
    (esp_lcd_new_panel_st7701_mipi envAllOk
        ⟨-1, LCD_RGB_ELEMENT_ORDER_RGB, 16, false, none⟩).ret = .ok
    ∧ (esp_lcd_new_panel_st7701_mipi envAllOk
        ⟨-1, LCD_RGB_ELEMENT_ORDER_RGB, 16, false, none⟩).panel
        = some ⟨-1, 0, 0x55, none, false, true⟩
    ∧ (panel_st7701_init none none none none [] none
        ⟨-1, 0, 0x55, none, false, true⟩).ret = .ok
    ∧ (panel_st7701_init none none none none [] none
        ⟨-1, 0, 0x55, none, false, true⟩).events
        = [Event.rxParam 0x04 3,
           Event.txParam ST7701_CMD_CND2BKxSEL [0x77, 0x01, 0x00, 0x00, 0x00],
           Event.txParam LCD_CMD_MADCTL [0],
           Event.txParam LCD_CMD_COLMOD [0x55]]
          ++ tableTrace vendor_specific_init_default
          ++ [Event.callDelegateInit]
    ∧ warnCount (panel_st7701_init none none none none [] none
        ⟨-1, 0, 0x55, none, false, true⟩).events = 0
    ∧ vendor_specific_init_default.length = 40
    ∧ vendor_specific_init_default.drop 38
        = [⟨LCD_CMD_SLPOUT, [0x00], 0, 120⟩, ⟨LCD_CMD_DISPON, [0x00], 0, 0⟩] := by
  decide

/-- C3 (code bug): when creation of the wrapped DPI panel fails after the
record was allocated, construction releases the configured reset GPIO and
propagates the error, but the calloc'd record is never freed on the error
path, so allocated state IS left behind. -/
theorem construct_error_releases_gpio_but_leaks :
    (esp_lcd_new_panel_st7701_mipi { envAllOk with dpiRes := some 3 }
        ⟨5, LCD_RGB_ELEMENT_ORDER_RGB, 16, false, none⟩).ret = .extErr 3
    ∧ (esp_lcd_new_panel_st7701_mipi { envAllOk with dpiRes := some 3 }
        ⟨5, LCD_RGB_ELEMENT_ORDER_RGB, 16, false, none⟩).panel = none
    ∧ Event.gpioResetPin 5 ∈ (esp_lcd_new_panel_st7701_mipi
        { envAllOk with dpiRes := some 3 }
        ⟨5, LCD_RGB_ELEMENT_ORDER_RGB, 16, false, none⟩).events
    ∧ Event.allocPanelState ∈ (esp_lcd_new_panel_st7701_mipi
        { envAllOk with dpiRes := some 3 }
        ⟨5, LCD_RGB_ELEMENT_ORDER_RGB, 16, false, none⟩).events
    ∧ Event.freePanelState ∉ (esp_lcd_new_panel_st7701_mipi
        { envAllOk with dpiRes := some 3 }
        ⟨5, LCD_RGB_ELEMENT_ORDER_RGB, 16, false, none⟩).events := by
  decide

/-- C6: for a valid color order, construction maps bitsPerPixel 16, 18 and
24 to pixelFormatRegister values 0x55, 0x66 and 0x77 respectively, and for
every other bitsPerPixel value construction fails with NotSupported. -/
theorem construct_colmod_mapping (cfg : esp_lcd_panel_dev_config_t)
    (hcs : cfg.color_space = LCD_RGB_ELEMENT_ORDER_RGB
           ∨ cfg.color_space = LCD_RGB_ELEMENT_ORDER_BGR) :
    (cfg.bits_per_pixel = 16 →
       (esp_lcd_new_panel_st7701_mipi envAllOk cfg).ret = .ok
       ∧ ((esp_lcd_new_panel_st7701_mipi envAllOk cfg).panel.map
            st7701_panel_t.colmod_val) = some 0x55)
    ∧ (cfg.bits_per_pixel = 18 →
       (esp_lcd_new_panel_st7701_mipi envAllOk cfg).ret = .ok
       ∧ ((esp_lcd_new_panel_st7701_mipi envAllOk cfg).panel.map
            st7701_panel_t.colmod_val) = some 0x66)
    ∧ (cfg.bits_per_pixel = 24 →
       (esp_lcd_new_panel_st7701_mipi envAllOk cfg).ret = .ok
       ∧ ((esp_lcd_new_panel_st7701_mipi envAllOk cfg).panel.map
            st7701_panel_t.colmod_val) = some 0x77)
    ∧ (cfg.bits_per_pixel ≠ 16 → cfg.bits_per_pixel ≠ 18 → cfg.bits_per_pixel ≠ 24 →
       (esp_lcd_new_panel_st7701_mipi envAllOk cfg).ret = .notSupported
       ∧ (esp_lcd_new_panel_st7701_mipi envAllOk cfg).panel = none) := by
  have hm : ∃ madctl, madctl_of_color_space cfg.color_space = some madctl := by
    rcases hcs with hc | hc
    · exact ⟨0, by simp [madctl_of_color_space, hc]⟩
    · exact ⟨0 ||| LCD_CMD_BGR_BIT, by
        simp [madctl_of_color_space, hc, LCD_RGB_ELEMENT_ORDER_RGB,
          LCD_RGB_ELEMENT_ORDER_BGR]⟩
  obtain ⟨madctl, hm⟩ := hm
  refine ⟨fun h16 => ?_, fun h18 => ?_, fun h24 => ?_, fun n16 n18 n24 => ?_⟩
  · rw [construct_envAllOk, hm]
    have hk : colmod_of_bpp cfg.bits_per_pixel = some 0x55 := by
      simp [colmod_of_bpp, h16]
    rw [hk]
    exact ⟨rfl, rfl⟩
  · rw [construct_envAllOk, hm]
    have hk : colmod_of_bpp cfg.bits_per_pixel = some 0x66 := by
      simp [colmod_of_bpp, h18]
    rw [hk]
    exact ⟨rfl, rfl⟩
  · rw [construct_envAllOk, hm]
    have hk : colmod_of_bpp cfg.bits_per_pixel = some 0x77 := by
      simp [colmod_of_bpp, h24]
    rw [hk]
    exact ⟨rfl, rfl⟩
  · rw [construct_envAllOk, hm]
    have hk : colmod_of_bpp cfg.bits_per_pixel = none := by
      simp [colmod_of_bpp, n16, n18, n24]
    rw [hk]
    exact ⟨rfl, rfl⟩

/-- Witness for construct_colmod_mapping: the 18bpp case and a rejected
20bpp case at concrete configurations. -/
theorem construct_colmod_mapping_witness :
    ((esp_lcd_new_panel_st7701_mipi envAllOk
        ⟨-1, LCD_RGB_ELEMENT_ORDER_RGB, 18, false, none⟩).ret = .ok
      ∧ ((esp_lcd_new_panel_st7701_mipi envAllOk
            ⟨-1, LCD_RGB_ELEMENT_ORDER_RGB, 18, false, none⟩).panel.map
           st7701_panel_t.colmod_val) = some 0x66)
    ∧ ((esp_lcd_new_panel_st7701_mipi envAllOk
          ⟨-1, LCD_RGB_ELEMENT_ORDER_BGR, 20, false, none⟩).ret = .notSupported
      ∧ (esp_lcd_new_panel_st7701_mipi envAllOk
          ⟨-1, LCD_RGB_ELEMENT_ORDER_BGR, 20, false, none⟩).panel = none) :=
  ⟨(construct_colmod_mapping ⟨-1, LCD_RGB_ELEMENT_ORDER_RGB, 18, false, none⟩
      (Or.inl rfl)).2.1 rfl,
   (construct_colmod_mapping ⟨-1, LCD_RGB_ELEMENT_ORDER_BGR, 20, false, none⟩
      (Or.inr rfl)).2.2.2 (by decide) (by decide) (by decide)⟩

/-- Extraction: a successful construction with colorOrder BGR yields a
state whose madctl_val has the BGR bit set. -/
lemma construct_bgr_madctl (cfg : esp_lcd_panel_dev_config_t) (st : st7701_panel_t)
    (hcs : cfg.color_space = LCD_RGB_ELEMENT_ORDER_BGR)
    (h : (esp_lcd_new_panel_st7701_mipi envAllOk cfg).panel = some st) :
    st.madctl_val &&& LCD_CMD_BGR_BIT = LCD_CMD_BGR_BIT := by
  rw [construct_envAllOk] at h
  have hm : madctl_of_color_space cfg.color_space = some (0 ||| LCD_CMD_BGR_BIT) := by
    simp [madctl_of_color_space, hcs, LCD_RGB_ELEMENT_ORDER_RGB,
      LCD_RGB_ELEMENT_ORDER_BGR]
  rw [hm] at h
  cases hk : colmod_of_bpp cfg.bits_per_pixel with
  | none => rw [hk] at h; simp at h
  | some k =>
    rw [hk] at h
    simp only [Option.some_inj] at h
    rw [← h]
    show (0 ||| LCD_CMD_BGR_BIT) &&& LCD_CMD_BGR_BIT = LCD_CMD_BGR_BIT
    decide

/-- C8: constructed with colorOrder BGR, the BGR bit of the orientation
register is set at construction, and it remains set after every sequence
of mirror calls with any arguments, any per-write transport outcomes, and
any transport liveness: mirror never clears it. -/
theorem bgr_bit_set_and_mirror_invariant (cfg : esp_lcd_panel_dev_config_t)
    (st : st7701_panel_t) (calls : List MirrorCall)
    (hcs : cfg.color_space = LCD_RGB_ELEMENT_ORDER_BGR)
    (h : (esp_lcd_new_panel_st7701_mipi envAllOk cfg).panel = some st) :
    st.madctl_val &&& LCD_CMD_BGR_BIT = LCD_CMD_BGR_BIT
    ∧ (runMirrors st calls).madctl_val &&& LCD_CMD_BGR_BIT = LCD_CMD_BGR_BIT := by
  have hb := construct_bgr_madctl cfg st hcs h
  exact ⟨hb, by rw [runMirrors_preserves_bgr]; exact hb⟩

/-- Witness for bgr_bit_set_and_mirror_invariant: a BGR 16bpp panel and a
two-call mirror sequence (one failing call, one after transport loss). -/
theorem bgr_bit_set_and_mirror_invariant_witness :
    (⟨-1, LCD_RGB_ELEMENT_ORDER_BGR, 16, false, none⟩ :
        esp_lcd_panel_dev_config_t).color_space = LCD_RGB_ELEMENT_ORDER_BGR
    ∧ (esp_lcd_new_panel_st7701_mipi envAllOk
        ⟨-1, LCD_RGB_ELEMENT_ORDER_BGR, 16, false, none⟩).panel
        = some ⟨-1, 0x08, 0x55, none, false, true⟩
    ∧ (⟨-1, 0x08, 0x55, none, false, true⟩ : st7701_panel_t).madctl_val
        &&& LCD_CMD_BGR_BIT = LCD_CMD_BGR_BIT
    ∧ (runMirrors ⟨-1, 0x08, 0x55, none, false, true⟩
        [⟨none, some 7, none, none, true, true, true⟩,
         ⟨none, none, none, none, false, false, false⟩]).madctl_val
        &&& LCD_CMD_BGR_BIT = LCD_CMD_BGR_BIT :=
  ⟨rfl, by decide,
   (bgr_bit_set_and_mirror_invariant ⟨-1, LCD_RGB_ELEMENT_ORDER_BGR, 16, false, none⟩
      ⟨-1, 0x08, 0x55, none, false, true⟩
      [⟨none, some 7, none, none, true, true, true⟩,
       ⟨none, none, none, none, false, false, false⟩] rfl (by decide)).1,
   (bgr_bit_set_and_mirror_invariant ⟨-1, LCD_RGB_ELEMENT_ORDER_BGR, 16, false, none⟩
      ⟨-1, 0x08, 0x55, none, false, true⟩
      [⟨none, some 7, none, none, true, true, true⟩,
       ⟨none, none, none, none, false, false, false⟩] rfl (by decide)).2⟩

/-- C10: in the replay loop, an entry targeting MADCTL or COLMOD with zero
parameter bytes never triggers an override (no warning, no register
change), and a page-select entry with four or fewer parameter bytes never
changes the command-group-2 state. -/
theorem replay_zero_bytes_and_short_pagesel (dis : Bool) (m c : Nat)
    (Q : List esp_panel_lcd_vendor_init_cmd_t)
    (f : esp_panel_lcd_vendor_init_cmd_t) :
    (f.data_bytes = 0 →
       warnCount (replay [] true m c (Q ++ [f])).events
         = warnCount (replay [] true m c Q).events
       ∧ (replay [] true m c (Q ++ [f])).madctl_val
         = (replay [] true m c Q).madctl_val
       ∧ (replay [] true m c (Q ++ [f])).colmod_val
         = (replay [] true m c Q).colmod_val)
    ∧ (f.cmd = ST7701_CMD_CND2BKxSEL → f.data_bytes ≤ 4 →
       cmd2From dis (Q ++ [f]) = cmd2From dis Q) := by
  constructor
  · intro h0
    refine ⟨?_, ?_, ?_⟩
    · rw [replay_snoc_warnCount]; simp [h0]
    · rw [replay_snoc_madctl]; simp [h0]
    · rw [replay_snoc_colmod]; simp [h0]
  · intro hp h4
    rw [cmd2From_append, cmd2From_cons, cmd2From_nil]
    have h4' : ¬ (4 < f.data_bytes) := by omega
    simp [cmd2DisableAfter, hp, h4']

/-- Witness for replay_zero_bytes_and_short_pagesel: a MADCTL entry with
zero parameter bytes adds no warning and changes no register, and a
4-byte page-select entry leaves the command-group-2 state unchanged. -/
theorem replay_zero_bytes_and_short_pagesel_witness :
    (warnCount (replay [] true 0 0x55
        ([] ++ [⟨LCD_CMD_MADCTL, [0xAB], 0, 0⟩])).events
       = warnCount (replay [] true 0 0x55 []).events
     ∧ (replay [] true 0 0x55 ([] ++ [⟨LCD_CMD_MADCTL, [0xAB], 0, 0⟩])).madctl_val
       = (replay [] true 0 0x55 []).madctl_val
     ∧ (replay [] true 0 0x55 ([] ++ [⟨LCD_CMD_MADCTL, [0xAB], 0, 0⟩])).colmod_val
       = (replay [] true 0 0x55 []).colmod_val)
    ∧ cmd2From true ([] ++ [⟨ST7701_CMD_CND2BKxSEL, [0x77, 0x01, 0x00, 0x00], 4, 0⟩])
        = cmd2From true [] :=
  ⟨(replay_zero_bytes_and_short_pagesel true 0 0x55 []
      ⟨LCD_CMD_MADCTL, [0xAB], 0, 0⟩).1 rfl,
   (replay_zero_bytes_and_short_pagesel true 0 0x55 []
      ⟨ST7701_CMD_CND2BKxSEL, [0x77, 0x01, 0x00, 0x00], 4, 0⟩).2 rfl (by decide)⟩

/-- C1 counterexample: a caller command list containing a
group-2-disable entry (page-select with the CN2 bit set) in which an
identical MADCTL entry appears AFTER that disable entry, yet DOES trigger
an override, because a later page-select entry with the CN2 bit clear has
re-enabled the override detection in between.  Replaying the full list
through initialize logs two override warnings (one for the MADCTL entry
before the disable entry, one for the identical entry after it) and
overwrites madctl_val, while the list without the final entry logs only
one. -/
theorem init_override_after_disable_cex :
    isCmd2DisableEntry ⟨0xFF, [0x77, 0x01, 0x00, 0x00, 0x13], 5, 0⟩
    ∧ warnCount (panel_st7701_init none none none none [] none
        ⟨-1, 0, 0x55,
         some [⟨0x36, [0xAB], 1, 0⟩,
               ⟨0xFF, [0x77, 0x01, 0x00, 0x00, 0x13], 5, 0⟩,
               ⟨0xFF, [0x77, 0x01, 0x00, 0x00, 0x00], 5, 0⟩,
               ⟨0x36, [0xAB], 1, 0⟩],
         false, true⟩).events = 2
    ∧ (panel_st7701_init none none none none [] none
        ⟨-1, 0, 0x55,
         some [⟨0x36, [0xAB], 1, 0⟩,
               ⟨0xFF, [0x77, 0x01, 0x00, 0x00, 0x13], 5, 0⟩,
               ⟨0xFF, [0x77, 0x01, 0x00, 0x00, 0x00], 5, 0⟩,
               ⟨0x36, [0xAB], 1, 0⟩],
         false, true⟩).madctl_val = 0xAB
    ∧ warnCount (panel_st7701_init none none none none [] none
        ⟨-1, 0, 0x55,
         some [⟨0x36, [0xAB], 1, 0⟩,
               ⟨0xFF, [0x77, 0x01, 0x00, 0x00, 0x13], 5, 0⟩,
               ⟨0xFF, [0x77, 0x01, 0x00, 0x00, 0x00], 5, 0⟩],
         false, true⟩).events = 1 := by
  decide

/-- C1 (amended): in initialize's replay, the command-group-2 flag starts
in the state in which overrides are detected; appending any entry to any
replayed prefix adds an override warning and overwrites madctl_val /
colmod_val exactly when the flag at that point is in the override-active
state, the entry has at least one parameter byte, and it targets MADCTL /
COLMOD; and an identical MADCTL/COLMOD entry appearing after a
group-2-disable entry does not trigger an override provided no
intervening page-select entry (with more than four parameter bytes and
the CN2 bit of its fifth byte clear) re-enables the override detection. -/
theorem init_override_only_while_enabled
    (m c : Nat) (P L2 : List esp_panel_lcd_vendor_init_cmd_t)
    (d e : esp_panel_lcd_vendor_init_cmd_t)
    (hd : isCmd2DisableEntry d)
    (hL2 : ∀ x ∈ L2, ¬ isCmd2EnableEntry x)
    (he : e.cmd = LCD_CMD_MADCTL ∨ e.cmd = LCD_CMD_COLMOD) :
    cmd2From true [] = true
    ∧ (∀ (Q : List esp_panel_lcd_vendor_init_cmd_t)
         (f : esp_panel_lcd_vendor_init_cmd_t),
         warnCount (replay [] true m c (Q ++ [f])).events
           = warnCount (replay [] true m c Q).events
             + (if cmd2From true Q = true ∧ 0 < f.data_bytes
                   ∧ (f.cmd = LCD_CMD_MADCTL ∨ f.cmd = LCD_CMD_COLMOD)
                then 1 else 0)
         ∧ (replay [] true m c (Q ++ [f])).madctl_val
             = (if cmd2From true Q = true ∧ 0 < f.data_bytes
                   ∧ f.cmd = LCD_CMD_MADCTL
                then f.data.getD 0 0 % 256 else (replay [] true m c Q).madctl_val)
         ∧ (replay [] true m c (Q ++ [f])).colmod_val
             = (if cmd2From true Q = true ∧ 0 < f.data_bytes
                   ∧ f.cmd = LCD_CMD_COLMOD
                then f.data.getD 0 0 % 256 else (replay [] true m c Q).colmod_val))
    ∧ warnCount (replay [] true m c ((P ++ d :: L2) ++ [e])).events
        = warnCount (replay [] true m c (P ++ d :: L2)).events
    ∧ (replay [] true m c ((P ++ d :: L2) ++ [e])).madctl_val
        = (replay [] true m c (P ++ d :: L2)).madctl_val
    ∧ (replay [] true m c ((P ++ d :: L2) ++ [e])).colmod_val
        = (replay [] true m c (P ++ d :: L2)).colmod_val := by
  have hflag : cmd2From true (P ++ d :: L2) = false := by
    rw [cmd2From_append, cmd2From_cons]
    rw [cmd2DisableAfter_of_disable (cmd2From true P) d hd]
    exact cmd2From_false_of_no_enable L2 hL2
  refine ⟨rfl, fun Q f => ⟨replay_snoc_warnCount m c Q f,
    replay_snoc_madctl m c Q f, replay_snoc_colmod m c Q f⟩, ?_, ?_, ?_⟩
  · rw [replay_snoc_warnCount]; simp [hflag]
  · rw [replay_snoc_madctl]; simp [hflag]
  · rw [replay_snoc_colmod]; simp [hflag]

/-- Witness for init_override_only_while_enabled: a prefix with a MADCTL
entry, then a group-2-disable entry, then the identical MADCTL entry with
nothing in between; the late entry adds no warning and no overwrite. -/
theorem init_override_only_while_enabled_witness :
    isCmd2DisableEntry ⟨0xFF, [0x77, 0x01, 0x00, 0x00, 0x13], 5, 0⟩
    ∧ warnCount (replay [] true 0 0x55
        (([⟨0x36, [0xAB], 1, 0⟩] ++ ⟨0xFF, [0x77, 0x01, 0x00, 0x00, 0x13], 5, 0⟩
            :: ([] : List esp_panel_lcd_vendor_init_cmd_t))
          ++ [⟨0x36, [0xAB], 1, 0⟩])).events
      = warnCount (replay [] true 0 0x55
          ([⟨0x36, [0xAB], 1, 0⟩] ++ ⟨0xFF, [0x77, 0x01, 0x00, 0x00, 0x13], 5, 0⟩
            :: ([] : List esp_panel_lcd_vendor_init_cmd_t))).events
    ∧ (replay [] true 0 0x55
        (([⟨0x36, [0xAB], 1, 0⟩] ++ ⟨0xFF, [0x77, 0x01, 0x00, 0x00, 0x13], 5, 0⟩
            :: ([] : List esp_panel_lcd_vendor_init_cmd_t))
          ++ [⟨0x36, [0xAB], 1, 0⟩])).madctl_val
      = (replay [] true 0 0x55
          ([⟨0x36, [0xAB], 1, 0⟩] ++ ⟨0xFF, [0x77, 0x01, 0x00, 0x00, 0x13], 5, 0⟩
            :: ([] : List esp_panel_lcd_vendor_init_cmd_t))).madctl_val :=
  ⟨by decide,
   (init_override_only_while_enabled 0 0x55 [⟨0x36, [0xAB], 1, 0⟩] []
      ⟨0xFF, [0x77, 0x01, 0x00, 0x00, 0x13], 5, 0⟩ ⟨0x36, [0xAB], 1, 0⟩
      (by decide) (by simp) (Or.inl rfl)).2.2.1,
   (init_override_only_while_enabled 0 0x55 [⟨0x36, [0xAB], 1, 0⟩] []
      ⟨0xFF, [0x77, 0x01, 0x00, 0x00, 0x13], 5, 0⟩ ⟨0x36, [0xAB], 1, 0⟩
      (by decide) (by simp) (Or.inl rfl)).2.2.2.1⟩
